import Mathlib

/-!
Verification development for the SeguimientoLogincoV2 customs-tracking system.

The definitions below are shallow embeddings of the Python/Django source:

* `revisions/views.py` (`quick_add_revision`) together with `trackings/models.py`
  (the `Tracking` model) — the revision-driven tracking status updates;
* `clients/views.py` (`toggle_client_step`, `update_client_step`,
  `bulk_assign_steps`, `reorder_client_steps`) together with `steps/models.py`
  and the `ClientStep` model — the per-client step plan;
* `clients/models.py` (`ClientDocument.save`) and `clients/views.py`
  (`client_document_review`) — the document ledger;
* `clients/tasks.py` (`check_document_expiration`) and
  `notifications/models.py` — the expiration sweep and its notifications;
* `shipments/views.py` (`ShipmentDetailView.get_context_data`) — the progress
  percentage.

Dates are modelled as proleptic-Gregorian `(year, month, day)` triples with the
usual leap-year rule, matching Python `datetime.date` plus `timedelta` day
arithmetic on the ranges used here.  Timestamps (`timezone.now()`) are opaque
`Nat` values.  Database rows are Lean lists of structure values.
-/

namespace Loginco

/-- Python `str.strip()` on the underlying character list: drop leading and
trailing whitespace.  (Defined by structural recursion so that concrete
instances evaluate inside the kernel.) -/
def stripList (l : List Char) : List Char :=
  ((l.dropWhile Char.isWhitespace).reverse.dropWhile Char.isWhitespace).reverse

/-- Python `str.strip()`. -/
def pyStrip (s : String) : String := ⟨stripList s.data⟩

/-! ## Tracking records and quick_add_revision (revisions/views.py 96-142) -/

/-- Embedding of the `Tracking` model (trackings/models.py lines 4-34): the
`status` column is a plain `CharField` restricted only by form choices, so it is
a `String` here; `finish_date` is a nullable timestamp. -/
structure Tracking where
  step : Nat
  status : String
  finish_date : Option Nat
deriving Repr, DecidableEq

/-- Embedding of the `Revision` row as created by `quick_add_revision`
(revisions/views.py lines 117-126): the fields that the endpoint copies from
the tracking and the request.  Audit columns (`date`, `time`, `client`,
`assigned_to`) do not affect any property below and are represented by the
creation timestamp. -/
structure Revision where
  step : Nat
  notes : String
  status : String
  created_at : Nat
deriving Repr, DecidableEq

/-- The state touched by `quick_add_revision`: the tracking row found by the
`tracking_id` lookup and the table of revisions attached to it. -/
structure RevisionState where
  tracking : Tracking
  revisions : List Revision
deriving Repr, DecidableEq

/-- Embedding of `quick_add_revision` (revisions/views.py lines 96-142) for an
existing tracking row.  Python strips both POST values; blank notes give a 400
response before anything is written.  Otherwise the endpoint unconditionally
creates the `Revision` (with `status = new_status or tracking.status`) and then,
if a non-empty status different from the current one was posted, assigns it to
the tracking — setting `finish_date = now` when the new status is `COMPLETED`.
No transition table is consulted anywhere, and no branch clears `finish_date`.
The `tracking_id`-missing and `DoesNotExist` branches return 400/404 without
touching state and are represented by the caller already holding the row. -/
def quick_add_revision (st : RevisionState) (rawNotes rawStatus : String)
    (now : Nat) : Except String RevisionState :=
  if pyStrip rawNotes = "" then
    Except.error "El comentario no puede estar vacio"
  else
    Except.ok
      { tracking :=
          if pyStrip rawStatus ≠ "" ∧ pyStrip rawStatus ≠ st.tracking.status then
            { st.tracking with
              status := pyStrip rawStatus
              finish_date :=
                if pyStrip rawStatus = "COMPLETED" then some now
                else st.tracking.finish_date }
          else st.tracking
        revisions := st.revisions ++
          [{ step := st.tracking.step
             notes := pyStrip rawNotes
             status :=
               if pyStrip rawStatus = "" then st.tracking.status
               else pyStrip rawStatus
             created_at := now }] }

/-- C1 counterexample: `CANCELLED → IN_PROGRESS` is not one of the permitted
edges, yet the endpoint returns success and overwrites the status; no
`InvalidTransitionError` exists anywhere in the code. -/
theorem quick_add_revision_cancelled_to_in_progress_accepted :
    quick_add_revision ⟨⟨5, "CANCELLED", none⟩, []⟩ "ok" "IN_PROGRESS" 0 =
      Except.ok ⟨⟨5, "IN_PROGRESS", none⟩, [⟨5, "ok", "IN_PROGRESS", 0⟩]⟩ ∧
    "IN_PROGRESS" ≠ "CANCELLED" := by
  constructor
  · rfl
  · decide

/-- C1 amended: the quick-revision status override path performs no transition
validation at all.  For every tracking record, non-blank notes and every posted
status that is non-empty and different from the current one — permitted edge or
not — the call succeeds and the tracking status becomes the posted value. -/
theorem quick_add_revision_accepts_any_status (t : Tracking)
    (revs : List Revision) (notes ns : String) (now : Nat)
    (hnotes : pyStrip notes ≠ "") (hns : pyStrip ns ≠ "")
    (hneq : pyStrip ns ≠ t.status) :
    (quick_add_revision ⟨t, revs⟩ notes ns now).map
        (fun st2 => st2.tracking.status) =
      Except.ok (pyStrip ns) := by
  simp only [quick_add_revision, Except.map]
  rw [if_neg hnotes]
  simp only [Except.map]
  split
  · rfl
  next h => exact absurd (And.intro hns hneq) h

/-- C1 witness. -/
theorem quick_add_revision_accepts_any_status_witness :
    (quick_add_revision ⟨⟨5, "CANCELLED", none⟩, []⟩ "nota" "IN_PROGRESS" 3).map
        (fun st2 => st2.tracking.status) =
      Except.ok (pyStrip "IN_PROGRESS") :=
  quick_add_revision_accepts_any_status ⟨5, "CANCELLED", none⟩ [] "nota"
    "IN_PROGRESS" 3 (by decide) (by decide) (by decide)

/-- C2 counterexample: with the tracking already `COMPLETED`, a call overriding
the status to `CANCELLED` (spec: must fail atomically with no revision row)
instead succeeds and persists a `Revision`. -/
theorem quick_add_revision_completed_to_cancelled_persists_revision :
    quick_add_revision ⟨⟨5, "COMPLETED", some 3⟩, []⟩ "ok" "CANCELLED" 9 =
      Except.ok ⟨⟨5, "CANCELLED", some 3⟩, [⟨5, "ok", "CANCELLED", 9⟩]⟩ := by
  rfl

/-- C2 amended: appending the revision is unconditional.  For every tracking
record and every posted status (valid transition or not), a call with non-blank
notes succeeds and appends exactly one `Revision`; there is no failing
transition path that would suppress the write. -/
theorem quick_add_revision_always_appends (t : Tracking) (revs : List Revision)
    (notes ns : String) (now : Nat) (hnotes : pyStrip notes ≠ "") :
    (quick_add_revision ⟨t, revs⟩ notes ns now).map
        (fun st2 => st2.revisions) =
      Except.ok (revs ++
        [⟨t.step, pyStrip notes,
          if pyStrip ns = "" then t.status else pyStrip ns, now⟩]) := by
  simp only [quick_add_revision, Except.map]
  rw [if_neg hnotes]

/-- C2 witness. -/
theorem quick_add_revision_always_appends_witness :
    (quick_add_revision ⟨⟨5, "COMPLETED", some 3⟩, []⟩ "ok" "CANCELLED" 9).map
        (fun st2 => st2.revisions) =
      Except.ok ([] ++ [⟨5, pyStrip "ok",
        if pyStrip "CANCELLED" = "" then "COMPLETED" else pyStrip "CANCELLED",
        9⟩]) :=
  quick_add_revision_always_appends ⟨5, "COMPLETED", some 3⟩ [] "ok" "CANCELLED"
    9 (by decide)

/-- C5 counterexample: reopening a `COMPLETED` tracking to `PENDING` leaves
`finish_date` set (`some 3`); the code has no branch clearing it, contrary to
the claim that any non-COMPLETED status set from COMPLETED clears the finish
timestamp. -/
theorem quick_add_revision_reopen_keeps_finish_date :
    quick_add_revision ⟨⟨2, "COMPLETED", some 3⟩, []⟩ "re" "PENDING" 9 =
      Except.ok ⟨⟨2, "PENDING", some 3⟩, [⟨2, "re", "PENDING", 9⟩]⟩ ∧
    (some 3 : Option Nat) ≠ none := by
  constructor
  · rfl
  · decide

/-- C5 amended: setting `COMPLETED` sets `finish_date = now`; setting any other
status — including the reopening transitions out of COMPLETED — leaves
`finish_date` exactly as it was (it is never cleared). -/
theorem quick_add_revision_finish_date (t : Tracking) (revs : List Revision)
    (notes ns : String) (now : Nat) (hnotes : pyStrip notes ≠ "")
    (hns : pyStrip ns ≠ "") (hneq : pyStrip ns ≠ t.status) :
    (quick_add_revision ⟨t, revs⟩ notes ns now).map
        (fun st2 => st2.tracking.finish_date) =
      Except.ok
        (if pyStrip ns = "COMPLETED" then some now else t.finish_date) := by
  simp only [quick_add_revision, Except.map]
  rw [if_neg hnotes]
  simp only [Except.map]
  split
  · rfl
  next h => exact absurd (And.intro hns hneq) h

/-- C5 witness (the COMPLETED case: the finish timestamp is stamped). -/
theorem quick_add_revision_finish_date_witness :
    (quick_add_revision ⟨⟨1, "IN_PROGRESS", none⟩, []⟩ "fin" "COMPLETED" 9).map
        (fun st2 => st2.tracking.finish_date) =
      Except.ok (if pyStrip "COMPLETED" = "COMPLETED" then some 9 else none) :=
  quick_add_revision_finish_date ⟨1, "IN_PROGRESS", none⟩ [] "fin" "COMPLETED" 9
    (by decide) (by decide) (by decide)

/-! ## Per-client step plan (clients/views.py 299-457, steps/models.py,
clients/models.py 168-205) -/

/-- Embedding of the `Step` catalog entry (steps/models.py): `number` is the
ordinal, `imp`/`exp` the direction applicability flags, `is_fixed` marks the
pinned (unremovable) steps.  Columns that no plan operation reads
(`description`, `etapa`, `department`, `directory`, `button`) are omitted. -/
structure Step where
  id : Nat
  number : Nat
  imp : Bool
  exp : Bool
  is_fixed : Bool
deriving Repr, DecidableEq

/-- Embedding of a `ClientStep` row (clients/models.py lines 168-205) for one
fixed client: the referenced catalog step, the per-client `order` and the
`is_active` flag.  The table has `unique_together (client, step)`. -/
structure ClientStep where
  step : Step
  order : Nat
  is_active : Bool
deriving Repr, DecidableEq

/-- The set of `ClientStep` rows of one client. -/
abbrev PlanState := List ClientStep

/-- Embedding of `toggle_client_step` (clients/views.py lines 302-333): fixed
steps are rejected with a 400 response; otherwise `get_or_create` either finds
an existing assignment (which is then deleted) or creates one with
`order = step.number` and `is_active = True`. -/
def toggle_client_step (st : PlanState) (s : Step) :
    Except String (PlanState × String) :=
  if s.is_fixed then
    Except.error "Los pasos obligatorios no se pueden remover"
  else if st.any (fun cs => cs.step.id == s.id) then
    Except.ok (st.filter (fun cs => cs.step.id != s.id), "removed")
  else
    Except.ok (st ++ [⟨s, s.number, true⟩], "added")

/-- Embedding of `update_client_step` (clients/views.py lines 339-366): 404 if
the assignment does not exist; otherwise a partial update of `order` and
`is_active`.  The POST `order` value arrives here already parsed to a number
(the `ValueError` branch returns 400 without a write); `is_active` keeps the
source comparison `value.lower() == "true"`.  Note that the view performs no
`is_fixed` check whatsoever. -/
def update_client_step (st : PlanState) (s : Step) (order : Option Nat)
    (is_active : Option String) : Except String PlanState :=
  if st.any (fun cs => cs.step.id == s.id) then
    Except.ok (st.map (fun cs =>
      if cs.step.id == s.id then
        { cs with
          order := order.getD cs.order
          is_active :=
            match is_active with
            | some v => v.toLower == "true"
            | none => cs.is_active }
      else cs))
  else Except.error "Paso no asignado"

/-- The get-or-create pass over the fixed steps at the end of
`bulk_assign_steps` (clients/views.py lines 409-418): each fixed catalog step
missing from the plan is added with the sentinel order
(`0` for step number 1, else `9999`) and `is_active = True`; existing rows are
left untouched. -/
def ensureFixed : PlanState → List Step → PlanState
  | st, [] => st
  | st, fs :: rest =>
      ensureFixed
        (if st.any (fun cs => cs.step.id == fs.id) then st
         else st ++ [⟨fs, if fs.number = 1 then 0 else 9999, true⟩]) rest

/-- Insertion of a step into a list sorted by ascending `number` (numbers are
unique in the catalog). -/
def insertByNumber (s : Step) : List Step → List Step
  | [] => [s]
  | t :: rest =>
      if s.number ≤ t.number then s :: t :: rest else t :: insertByNumber s rest

/-- The `order_by('number')` pass of `bulk_assign_steps`: sort the selected
catalog steps by ascending `number`. -/
def sortByNumber : List Step → List Step
  | [] => []
  | s :: rest => insertByNumber s (sortByNumber rest)

/-- Sequential `order = 1, 2, 3, …` assignment used by `bulk_assign_steps`
(clients/views.py lines 399-407). -/
def assignOrders : Nat → List Step → List ClientStep
  | _, [] => []
  | n, s :: rest => ⟨s, n, true⟩ :: assignOrders (n + 1) rest

/-- Embedding of `bulk_assign_steps` (clients/views.py lines 372-422).
`"none"` deletes the optional (non-fixed) assignments only; `"imp"`, `"exp"`
and `"all"` delete the optional assignments, re-create them from the matching
non-fixed catalog steps in `number` order with sequential 1-based orders, and
finally re-ensure the fixed steps; any other type leaves the plan unchanged
(the view only redirects). -/
def bulk_assign_steps (catalog : List Step) (st : PlanState)
    (step_type : String) : PlanState :=
  if step_type = "none" then
    st.filter (fun cs => cs.step.is_fixed)
  else if step_type = "imp" ∨ step_type = "exp" ∨ step_type = "all" then
    let selected := catalog.filter (fun s =>
      !s.is_fixed &&
        (if step_type = "imp" then s.imp
         else if step_type = "exp" then s.exp else true))
    let newOnes := assignOrders 1 (sortByNumber selected)
    ensureFixed (st.filter (fun cs => cs.step.is_fixed) ++ newOnes)
      (catalog.filter (fun s => s.is_fixed))
  else st

/-- One pass of the `reorder_client_steps` loop (clients/views.py lines
444-452): for each `(order, step_id)` pair the matching assignment — if any —
is given the new order unless its step is fixed. -/
def applyReorder : PlanState → List (Nat × Nat) → PlanState
  | st, [] => st
  | st, (ord, sid) :: rest =>
      applyReorder
        (st.map (fun cs =>
          if cs.step.id == sid && !cs.step.is_fixed then { cs with order := ord }
          else cs)) rest

/-- Embedding of `reorder_client_steps` (clients/views.py lines 428-457): an
empty id list is a 400 response; otherwise the ids are enumerated starting at
1 and each referenced non-fixed assignment gets the 1-based position as its
order; unknown ids are skipped (`DoesNotExist → continue`). -/
def reorder_client_steps (st : PlanState) (step_ids : List Nat) :
    Except String PlanState :=
  if step_ids.isEmpty then Except.error "No se recibieron pasos"
  else Except.ok (applyReorder st (step_ids.enum.map (fun p => (p.1 + 1, p.2))))

/-- The three plan-mutation endpoints quantified over in the pinned-step
invariant. -/
inductive PlanOp where
  | toggle (s : Step)
  | bulkAssign (stepType : String)
  | reorder (ids : List Nat)
deriving Repr, DecidableEq

/-- Run one endpoint; an error response leaves the stored plan unchanged. -/
def applyPlanOp (catalog : List Step) (st : PlanState) : PlanOp → PlanState
  | PlanOp.toggle s =>
      match toggle_client_step st s with
      | Except.ok r => r.1
      | Except.error _ => st
  | PlanOp.bulkAssign ty => bulk_assign_steps catalog st ty
  | PlanOp.reorder ids =>
      match reorder_client_steps st ids with
      | Except.ok st2 => st2
      | Except.error _ => st

/-- Run a sequence of endpoint calls. -/
def runPlanOps (catalog : List Step) (st : PlanState) (ops : List PlanOp) :
    PlanState :=
  ops.foldl (applyPlanOp catalog) st

/-- A pinned step is assigned, active, and fixed at the given sentinel order. -/
@[reducible] def pinnedAt (p : Step) (ord : Nat) (st : PlanState) : Prop :=
  ∃ cs ∈ st, cs.step = p ∧ cs.order = ord ∧ cs.is_active = true

/-- The pinned-step invariant of a provisioned plan (client_steps_view,
clients/views.py lines 247-264): the first pinned step sits at order 0 and the
last at order 9999, both active. -/
@[reducible] def pinnedOk (fixedFirst fixedLast : Step) (st : PlanState) : Prop :=
  pinnedAt fixedFirst 0 st ∧ pinnedAt fixedLast 9999 st

/-- Catalog step ids are primary keys, hence injective. -/
@[reducible] def uniqueIds (catalog : List Step) : Prop :=
  ∀ s1 ∈ catalog, ∀ s2 ∈ catalog, s1.id = s2.id → s1 = s2

/-- The endpoints resolve the step id with `get_object_or_404(Step, …)`, so a
toggle argument is always a catalog row. -/
def opInCatalog (catalog : List Step) : PlanOp → Bool
  | PlanOp.toggle s => decide (s ∈ catalog)
  | _ => true

/-- ensureFixed only appends rows, so membership is preserved. -/
theorem mem_ensureFixed (cs : ClientStep) :
    ∀ (fs : List Step) (st : PlanState), cs ∈ st → cs ∈ ensureFixed st fs := by
  intro fs
  induction fs with
  | nil => intro st h; exact h
  | cons f rest ih =>
      intro st h
      unfold ensureFixed
      apply ih
      split
      · exact h
      · exact List.mem_append_left _ h

/-- applyReorder never touches an assignment of a fixed step. -/
theorem mem_applyReorder_fixed (cs : ClientStep) (hfix : cs.step.is_fixed = true) :
    ∀ (l : List (Nat × Nat)) (st : PlanState), cs ∈ st → cs ∈ applyReorder st l := by
  intro l
  induction l with
  | nil => intro st h; exact h
  | cons p rest ih =>
      intro st h
      obtain ⟨ord, sid⟩ := p
      unfold applyReorder
      apply ih
      have : (fun cs0 : ClientStep =>
          if cs0.step.id == sid && !cs0.step.is_fixed then { cs0 with order := ord }
          else cs0) cs = cs := by
        simp [hfix]
      exact this ▸ List.mem_map_of_mem _ h

/-- Core stability fact: no plan endpoint ever deletes or modifies an
assignment whose step is fixed.  (For toggle this needs that the toggled step
is a catalog row and that catalog ids are keys: the fixed-step guard fires
whenever the id matches a fixed assignment.) -/
theorem fixed_assignment_stable (catalog : List Step) (cs : ClientStep)
    (hfix : cs.step.is_fixed = true) (hcsc : cs.step ∈ catalog)
    (huniq : uniqueIds catalog) (op : PlanOp)
    (hop : opInCatalog catalog op = true) (st : PlanState) (h : cs ∈ st) :
    cs ∈ applyPlanOp catalog st op := by
  cases op with
  | toggle s =>
      have hsc : s ∈ catalog := of_decide_eq_true hop
      by_cases hsf : s.is_fixed = true
      · simp [applyPlanOp, toggle_client_step, hsf]
        exact h
      · have hne : cs.step.id ≠ s.id := by
          intro hid
          have hse : s = cs.step := huniq s hsc cs.step hcsc hid.symm
          rw [hse] at hsf
          exact hsf hfix
        simp only [applyPlanOp, toggle_client_step]
        rw [if_neg hsf]
        cases hany : st.any (fun cs0 => cs0.step.id == s.id) with
        | true =>
            rw [if_pos rfl]
            exact List.mem_filter.mpr ⟨h, by simp [hne]⟩
        | false =>
            rw [if_neg (by decide)]
            exact List.mem_append_left _ h
  | bulkAssign ty =>
      simp only [applyPlanOp, bulk_assign_steps]
      split
      · exact List.mem_filter.mpr ⟨h, hfix⟩
      · split
        · exact mem_ensureFixed cs _ _
            (List.mem_append_left _ (List.mem_filter.mpr ⟨h, hfix⟩))
        · exact h
  | reorder ids =>
      simp only [applyPlanOp, reorder_client_steps]
      cases hemp : ids.isEmpty with
      | true => rw [if_pos rfl]; exact h
      | false =>
          rw [if_neg (by decide)]
          exact mem_applyReorder_fixed cs hfix _ st h

/-- pinnedAt is preserved by every endpoint call. -/
theorem pinnedAt_applyPlanOp (catalog : List Step) (p : Step) (ord : Nat)
    (hp : p.is_fixed = true) (hpc : p ∈ catalog) (huniq : uniqueIds catalog)
    (op : PlanOp) (hop : opInCatalog catalog op = true) (st : PlanState)
    (h : pinnedAt p ord st) : pinnedAt p ord (applyPlanOp catalog st op) := by
  obtain ⟨cs, hcs, hstep, hord, hact⟩ := h
  refine ⟨cs, ?_, hstep, hord, hact⟩
  exact fixed_assignment_stable catalog cs (hstep ▸ hp) (hstep ▸ hpc) huniq op
    hop st hcs

/-- C3 confirmed: for every catalog whose ids are keys, every pair of fixed
(pinned) steps from it, and every finite sequence of toggle, bulkAssign and
reorder calls on a plan that satisfies the provisioned pinned invariant, the
invariant still holds afterwards: both pinned steps stay assigned, active, and
at the order sentinels 0 and 9999 — toggle rejects fixed steps, bulkAssign
deletes only non-fixed assignments and re-ensures the fixed ones, and reorder
skips fixed assignments. -/
theorem pinned_steps_invariant (catalog : List Step) (fixedFirst fixedLast : Step)
    (hf1 : fixedFirst.is_fixed = true) (hf2 : fixedLast.is_fixed = true)
    (hc1 : fixedFirst ∈ catalog) (hc2 : fixedLast ∈ catalog)
    (huniq : uniqueIds catalog) (ops : List PlanOp)
    (hops : ∀ op ∈ ops, opInCatalog catalog op = true) (st : PlanState)
    (hst : pinnedOk fixedFirst fixedLast st) :
    pinnedOk fixedFirst fixedLast (runPlanOps catalog st ops) := by
  induction ops generalizing st with
  | nil => exact hst
  | cons op rest ih =>
      have hop : opInCatalog catalog op = true := hops op (List.mem_cons_self _ _)
      have hrest : ∀ o ∈ rest, opInCatalog catalog o = true :=
        fun o ho => hops o (List.mem_cons_of_mem _ ho)
      have hstep : pinnedOk fixedFirst fixedLast (applyPlanOp catalog st op) :=
        ⟨pinnedAt_applyPlanOp catalog fixedFirst 0 hf1 hc1 huniq op hop st hst.1,
         pinnedAt_applyPlanOp catalog fixedLast 9999 hf2 hc2 huniq op hop st hst.2⟩
      exact ih hrest _ hstep

/-- C3 witness: a concrete catalog with pinned steps 1 and 14 and optional
steps 3 and 5; the sequence toggles step 3, bulk-assigns the import set and
reorders; the pinned assignments survive at their sentinels. -/
theorem pinned_steps_invariant_witness :
    pinnedOk ⟨1, 1, true, true, true⟩ ⟨14, 14, true, true, true⟩
      (runPlanOps
        [⟨1, 1, true, true, true⟩, ⟨3, 3, true, false, false⟩,
         ⟨5, 5, false, true, false⟩, ⟨14, 14, true, true, true⟩]
        [⟨⟨1, 1, true, true, true⟩, 0, true⟩,
         ⟨⟨14, 14, true, true, true⟩, 9999, true⟩]
        [PlanOp.toggle ⟨3, 3, true, false, false⟩, PlanOp.bulkAssign "imp",
         PlanOp.reorder [3, 5], PlanOp.toggle ⟨1, 1, true, true, true⟩]) :=
  pinned_steps_invariant
    [⟨1, 1, true, true, true⟩, ⟨3, 3, true, false, false⟩,
     ⟨5, 5, false, true, false⟩, ⟨14, 14, true, true, true⟩]
    ⟨1, 1, true, true, true⟩ ⟨14, 14, true, true, true⟩
    (by decide) (by decide) (by decide) (by decide) (by decide)
    [PlanOp.toggle ⟨3, 3, true, false, false⟩, PlanOp.bulkAssign "imp",
     PlanOp.reorder [3, 5], PlanOp.toggle ⟨1, 1, true, true, true⟩]
    (by decide)
    [⟨⟨1, 1, true, true, true⟩, 0, true⟩, ⟨⟨14, 14, true, true, true⟩, 9999, true⟩]
    (by decide)

/-- C4 counterexample: `update_client_step` has no fixed-step guard.  A pinned
assignment sitting at its sentinel order 0 is freely moved to order 5 by a
user-supplied value, and the call reports success. -/
theorem update_client_step_moves_pinned_order :
    update_client_step [⟨⟨1, 1, true, true, true⟩, 0, true⟩]
        ⟨1, 1, true, true, true⟩ (some 5) none =
      Except.ok [⟨⟨1, 1, true, true, true⟩, 5, true⟩] ∧
    Step.is_fixed ⟨1, 1, true, true, true⟩ = true := by
  constructor
  · rfl
  · rfl

/-- C4 amended: `update_client_step` applies a supplied order value to the
matching assignment unconditionally — pinned and non-pinned assignments alike
are reorderable through it; nothing fixes the pinned order against the user. -/
theorem update_client_step_sets_any_order (st : PlanState) (s : Step) (o : Nat)
    (hmem : st.any (fun cs => cs.step.id == s.id) = true) :
    ∃ st2, update_client_step st s (some o) none = Except.ok st2 ∧
      (∃ cs ∈ st2, cs.step.id = s.id ∧ cs.order = o) ∧
      (∀ cs ∈ st2, cs.step.id = s.id → cs.order = o) := by
  refine ⟨st.map (fun cs =>
      if cs.step.id == s.id then
        { cs with
          order := (some o).getD cs.order
          is_active :=
            match (none : Option String) with
            | some v => v.toLower == "true"
            | none => cs.is_active }
      else cs), ?_, ?_, ?_⟩
  · unfold update_client_step
    rw [if_pos hmem]
  · obtain ⟨cs, hcs, hid⟩ := List.any_eq_true.mp hmem
    have heq2 : cs.step.id = s.id := by simpa using hid
    refine ⟨_, List.mem_map_of_mem _ hcs, ?_⟩
    simp [hid, heq2]
  · intro cs2 hcs2 hid2
    obtain ⟨cs, hcs, heq⟩ := List.mem_map.mp hcs2
    by_cases hid : (cs.step.id == s.id) = true
    · rw [if_pos hid] at heq
      rw [← heq]
      rfl
    · rw [if_neg hid] at heq
      rw [← heq] at hid2
      exact absurd (beq_iff_eq.mpr hid2) hid

/-- C4 witness: the amended claim applied to the pinned assignment of the
counterexample. -/
theorem update_client_step_sets_any_order_witness :
    ∃ st2, update_client_step [⟨⟨1, 1, true, true, true⟩, 0, true⟩]
        ⟨1, 1, true, true, true⟩ (some 5) none = Except.ok st2 ∧
      (∃ cs ∈ st2, cs.step.id = 1 ∧ cs.order = 5) ∧
      (∀ cs ∈ st2, cs.step.id = 1 → cs.order = 5) :=
  update_client_step_sets_any_order [⟨⟨1, 1, true, true, true⟩, 0, true⟩]
    ⟨1, 1, true, true, true⟩ 5 (by decide)

/-! ## Calendar dates (Python datetime.date with timedelta day arithmetic) -/

/-- A proleptic-Gregorian calendar date. -/
structure Date where
  year : Nat
  month : Nat
  day : Nat
deriving Repr, DecidableEq

/-- The Gregorian leap-year rule. -/
def isLeapYear (y : Nat) : Bool :=
  (y % 4 == 0 && y % 100 != 0) || y % 400 == 0

/-- Number of days of a month. -/
def daysInMonth (y m : Nat) : Nat :=
  if m = 2 then (if isLeapYear y then 29 else 28)
  else if m = 4 ∨ m = 6 ∨ m = 9 ∨ m = 11 then 30
  else 31

/-- The next calendar day. -/
def Date.next (d : Date) : Date :=
  if d.day < daysInMonth d.year d.month then ⟨d.year, d.month, d.day + 1⟩
  else if d.month < 12 then ⟨d.year, d.month + 1, 1⟩
  else ⟨d.year + 1, 1, 1⟩

/-- Python `date + timedelta(days = n)`. -/
def addDays (d : Date) : Nat → Date
  | 0 => d
  | n + 1 => addDays d.next n

/-- Strict date comparison (lexicographic on year, month, day). -/
def dateLt (a b : Date) : Bool :=
  a.year < b.year ||
    (a.year == b.year && (a.month < b.month ||
      (a.month == b.month && a.day < b.day)))

/-- Non-strict date comparison. -/
def dateLe (a b : Date) : Bool := a == b || dateLt a b

/-! ## Client documents (clients/models.py 208-343) -/

/-- Embedding of `DocumentCategory` (clients/models.py lines 208-229):
`validity_months` is a nullable positive integer — "leave empty when there is
no validity window". -/
structure DocumentCategory where
  code : String
  is_required : Bool
  validity_months : Option Nat
deriving Repr, DecidableEq

/-- Embedding of `ClientDocument` (clients/models.py lines 235-343) for one
client: category, dates, review state.  The status values are the Spanish
`STATUS_CHOICES` codes `PENDIENTE / APROBADO / RECHAZADO / VENCIDO` (default
`PENDIENTE`); file-storage metadata is omitted. -/
structure ClientDocument where
  id : Nat
  category : DocumentCategory
  document_date : Option Date
  expiration_date : Option Date
  status : String
  reviewed_by : Option Nat
  reviewed_at : Option Nat
  review_notes : String
deriving Repr, DecidableEq

/-- Python truthiness of `self.category.validity_months`: `None` and `0` are
both falsy, so a zero validity window disables the derivation. -/
def truthyValidity (c : DocumentCategory) : Bool :=
  match c.validity_months with
  | some m => m != 0
  | none => false

/-- The `is_expired` property (clients/models.py lines 318-323):
`expiration_date < today`, false when unset. -/
def isExpiredOn (doc : ClientDocument) (today : Date) : Bool :=
  match doc.expiration_date with
  | some d => dateLt d today
  | none => false

/-- First half of `ClientDocument.save` (clients/models.py lines 334-337):
derive `expiration_date = (document_date or today) + validity_months * 30
days` when it is unset and the category has a truthy validity. -/
def deriveExpiration (doc : ClientDocument) (today : Date) : ClientDocument :=
  if doc.expiration_date.isNone && truthyValidity doc.category then
    { doc with
      expiration_date :=
        some (addDays (doc.document_date.getD today)
          (doc.category.validity_months.getD 0 * 30)) }
  else doc

/-- Second half of `ClientDocument.save` (clients/models.py lines 339-341):
re-mark an approved document as expired when past its expiration date. -/
def applyExpiredMark (doc : ClientDocument) (today : Date) : ClientDocument :=
  if isExpiredOn doc today && (doc.status == "APROBADO") then
    { doc with status := "VENCIDO" }
  else doc

/-- Embedding of `ClientDocument.save` (clients/models.py lines 333-343);
`today` is `timezone.now().date()` at save time. -/
def ClientDocument.save (doc : ClientDocument) (today : Date) : ClientDocument :=
  applyExpiredMark (deriveExpiration doc today) today

/-- C7 counterexample: a category with `validity_months` set to `0` is falsy in
Python, so the derivation is skipped and the persisted `expiration_date` stays
unset instead of `base + 0 * 30 days = base`. -/
theorem clientDocument_save_zero_validity_skips_derivation :
    (ClientDocument.save
        ⟨1, ⟨"PODER", true, some 0⟩, some ⟨2024, 1, 15⟩, none, "PENDIENTE",
         none, none, ""⟩ ⟨2024, 1, 20⟩).expiration_date = none ∧
    some (addDays ⟨2024, 1, 15⟩ (0 * 30)) ≠ (none : Option Date) := by
  constructor
  · rfl
  · decide

/-- C7 amended: for every document created with no explicit expiration date
whose category has a nonzero `validity_months = m`, saving persists
`expiration_date = (document_date or creation date) + m * 30 days`, and the
`PENDIENTE` (pending) initial status is kept. -/
theorem clientDocument_save_derives_expiration (doc : ClientDocument)
    (today : Date) (m : Nat) (hexp : doc.expiration_date = none)
    (hv : doc.category.validity_months = some m) (hm : 0 < m)
    (hst : doc.status = "PENDIENTE") :
    (ClientDocument.save doc today).expiration_date =
      some (addDays (doc.document_date.getD today) (m * 30)) ∧
    (ClientDocument.save doc today).status = "PENDIENTE" := by
  have htruthy : truthyValidity doc.category = true := by
    simp only [truthyValidity, hv, bne_iff_ne]
    omega
  have hd : deriveExpiration doc today =
      { doc with
        expiration_date :=
          some (addDays (doc.document_date.getD today) (m * 30)) } := by
    unfold deriveExpiration
    rw [if_pos (by simp [hexp, htruthy])]
    simp [hv]
  have hnotappr : (({ doc with
      expiration_date :=
        some (addDays (doc.document_date.getD today) (m * 30)) } :
        ClientDocument).status == "APROBADO") = false := by
    simp [hst]
  constructor
  · unfold ClientDocument.save applyExpiredMark
    rw [hd]
    split
    · rfl
    · rfl
  · unfold ClientDocument.save applyExpiredMark
    rw [hd, hnotappr]
    simp [hst]

set_option maxRecDepth 4000 in
/-- C7 witness: the INVOICE scenario — a document dated 2024-01-15 in a
6-month category gets `expiration_date = 2024-07-13` (180 days later) and
stays PENDIENTE. -/
theorem clientDocument_save_derives_expiration_witness :
    (ClientDocument.save
        ⟨1, ⟨"INVOICE", true, some 6⟩, some ⟨2024, 1, 15⟩, none, "PENDIENTE",
         none, none, ""⟩ ⟨2024, 2, 1⟩).expiration_date = some ⟨2024, 7, 13⟩ ∧
    (ClientDocument.save
        ⟨1, ⟨"INVOICE", true, some 6⟩, some ⟨2024, 1, 15⟩, none, "PENDIENTE",
         none, none, ""⟩ ⟨2024, 2, 1⟩).status = "PENDIENTE" := by
  have h := clientDocument_save_derives_expiration
    ⟨1, ⟨"INVOICE", true, some 6⟩, some ⟨2024, 1, 15⟩, none, "PENDIENTE",
     none, none, ""⟩ ⟨2024, 2, 1⟩ 6 rfl rfl (by decide) rfl
  exact ⟨h.1.trans (by decide), h.2⟩

/-! ## Expiration sweep (clients/tasks.py 36-41) -/

/-- The queryset condition of the sweep: `expiration_date < today` (nulls never
match) and `status in [PENDIENTE, APROBADO]`. -/
def expireHit (today : Date) (doc : ClientDocument) : Bool :=
  isExpiredOn doc today && (doc.status == "PENDIENTE" || doc.status == "APROBADO")

/-- One document after the bulk `update(status = VENCIDO)`. -/
def sweepOne (today : Date) (doc : ClientDocument) : ClientDocument :=
  if expireHit today doc then { doc with status := "VENCIDO" } else doc

/-- Embedding of the sweep step of `check_document_expiration`
(clients/tasks.py lines 36-41): mark every matching document `VENCIDO`; the
returned count is the number of updated rows (the value of
`QuerySet.update`). -/
def sweepExpirations (docs : List ClientDocument) (today : Date) :
    List ClientDocument × Nat :=
  (docs.map (sweepOne today), (docs.filter (expireHit today)).length)

/-- After the sweep a document can no longer match the sweep condition: either
it was updated to `VENCIDO`, or it did not match in the first place. -/
theorem expireHit_sweepOne (today : Date) (doc : ClientDocument) :
    expireHit today (sweepOne today doc) = false := by
  unfold sweepOne
  by_cases h : expireHit today doc = true
  · rw [if_pos h]
    simp [expireHit, isExpiredOn]
  · rw [if_neg h]
    exact Bool.not_eq_true _ ▸ h

/-- Sweeping a document twice equals sweeping it once. -/
theorem sweepOne_idem (today : Date) (doc : ClientDocument) :
    sweepOne today (sweepOne today doc) = sweepOne today doc := by
  conv_lhs => rw [sweepOne]
  rw [expireHit_sweepOne]
  simp

/-- C6 confirmed: the expiration sweep is idempotent — for every document set
and date, running `sweepExpirations` twice yields the same document statuses as
running it once, and the count of the second run is 0 (the first run moves all
matching documents to `VENCIDO`, which the filter excludes). -/
theorem sweepExpirations_idempotent (docs : List ClientDocument) (today : Date) :
    (sweepExpirations (sweepExpirations docs today).1 today).1 =
      (sweepExpirations docs today).1 ∧
    (sweepExpirations (sweepExpirations docs today).1 today).2 = 0 := by
  constructor
  · show ((docs.map (sweepOne today)).map (sweepOne today)) = docs.map (sweepOne today)
    rw [List.map_map]
    exact List.map_congr_left (fun d _ => sweepOne_idem today d)
  · show ((docs.map (sweepOne today)).filter (expireHit today)).length = 0
    rw [List.length_eq_zero]
    rw [List.filter_eq_nil_iff]
    intro d hd
    obtain ⟨d0, _, rfl⟩ := List.mem_map.mp hd
    simp [expireHit_sweepOne]

/-! ## Document review (clients/views.py 626-654) -/

/-- Embedding of `client_document_review` (clients/views.py lines 626-654) for
an existing document and a valid POST: the `ClientDocumentReviewForm` writes
the chosen `status` and `review_notes` onto the instance, the view stamps
`reviewed_by` and `reviewed_at`, and `document.save()` runs the model hook.
There is no guard of any kind on the current status — an expired document is
reviewed like any other. -/
def client_document_review (doc : ClientDocument) (decision notes2 : String)
    (reviewer now : Nat) (today : Date) : ClientDocument :=
  ClientDocument.save
    { doc with
      status := decision
      review_notes := notes2
      reviewed_by := some reviewer
      reviewed_at := some now } today

/-- C10 counterexample: reviewing an already `VENCIDO` (EXPIRED) document
succeeds — no `TerminalStateError` exists — and changes its status and review
fields. -/
theorem client_document_review_accepts_expired :
    client_document_review
        ⟨1, ⟨"INVOICE", true, some 6⟩, some ⟨2024, 1, 15⟩, some ⟨2024, 3, 1⟩,
         "VENCIDO", none, none, ""⟩ "RECHAZADO" "no valido" 7 99 ⟨2024, 8, 1⟩ =
      ⟨1, ⟨"INVOICE", true, some 6⟩, some ⟨2024, 1, 15⟩, some ⟨2024, 3, 1⟩,
       "RECHAZADO", some 7, some 99, "no valido"⟩ ∧
    "RECHAZADO" ≠ "VENCIDO" := by
  constructor
  · rfl
  · decide

/-- C10 amended: the review of an `VENCIDO` (EXPIRED) document is accepted,
not rejected: `reviewed_by` and `reviewed_at` are always stamped, and unless
the decision is `APROBADO` (in which case the save hook may immediately
re-mark a past-expiry document as `VENCIDO`) the status becomes exactly the
chosen decision. -/
theorem client_document_review_updates_terminal (doc : ClientDocument)
    (decision notes2 : String) (reviewer now : Nat) (today : Date)
    (hterm : doc.status = "VENCIDO") :
    (client_document_review doc decision notes2 reviewer now today).reviewed_by
        = some reviewer ∧
    (client_document_review doc decision notes2 reviewer now today).reviewed_at
        = some now ∧
    (decision ≠ "APROBADO" →
      (client_document_review doc decision notes2 reviewer now today).status
        = decision) := by
  unfold client_document_review ClientDocument.save deriveExpiration
    applyExpiredMark
  refine ⟨?_, ?_, ?_⟩
  · split
    · split
      · rfl
      · rfl
    · split
      · rfl
      · rfl
  · split
    · split
      · rfl
      · rfl
    · split
      · rfl
      · rfl
  · intro hdec
    have hne : (decision == "APROBADO") = false := by
      simp [hdec]
    split
    · rw [hne]
      simp
    · rw [hne]
      simp

/-- C10 witness. -/
theorem client_document_review_updates_terminal_witness :
    (client_document_review
        ⟨1, ⟨"INVOICE", true, some 6⟩, some ⟨2024, 1, 15⟩, some ⟨2024, 3, 1⟩,
         "VENCIDO", none, none, ""⟩ "RECHAZADO" "nv" 7 99 ⟨2024, 8, 1⟩).reviewed_by
        = some 7 ∧
    (client_document_review
        ⟨1, ⟨"INVOICE", true, some 6⟩, some ⟨2024, 1, 15⟩, some ⟨2024, 3, 1⟩,
         "VENCIDO", none, none, ""⟩ "RECHAZADO" "nv" 7 99 ⟨2024, 8, 1⟩).reviewed_at
        = some 99 ∧
    ("RECHAZADO" ≠ "APROBADO" →
      (client_document_review
        ⟨1, ⟨"INVOICE", true, some 6⟩, some ⟨2024, 1, 15⟩, some ⟨2024, 3, 1⟩,
         "VENCIDO", none, none, ""⟩ "RECHAZADO" "nv" 7 99 ⟨2024, 8, 1⟩).status
        = "RECHAZADO") :=
  client_document_review_updates_terminal
    ⟨1, ⟨"INVOICE", true, some 6⟩, some ⟨2024, 1, 15⟩, some ⟨2024, 3, 1⟩,
     "VENCIDO", none, none, ""⟩ "RECHAZADO" "nv" 7 99 ⟨2024, 8, 1⟩ rfl

/-! ## Shipment progress (shipments/views.py 129-146)

The view computes `int((completed_steps / total_steps) * 100)`.  Python
evaluates this in IEEE-754 binary64: the quotient `completed / total` is
rounded to the nearest representable double (53 significant bits, ties to
even), the product `· * 100` is rounded again, and `int()` truncates toward
zero.  The values involved are nonnegative, finite and far from the subnormal
and overflow ranges, so binary64 arithmetic on them is exactly the dyadic
arithmetic below: a nonnegative double is `m * 2 ^ e` with `m = 0` or
`2 ^ 52 ≤ m < 2 ^ 53`, and each operation rounds the exact result back to
that grid with ties to even.  This model reproduces the float anomalies of
the source, e.g. `int((29 / 100) * 100) = 28`. -/

/-- Bit length with explicit fuel (structural recursion, so that the kernel
can evaluate it); `bitlenAux (n + 1) n` is the number of binary digits of
`n`. -/
def bitlenAux : Nat → Nat → Nat
  | 0, _ => 0
  | fuel + 1, n => if n = 0 then 0 else bitlenAux fuel (n / 2) + 1

/-- Number of binary digits of `n` (0 for 0). -/
def bitlen (n : Nat) : Nat := bitlenAux (n + 1) n

/-- A nonnegative binary64 value `m * 2 ^ e`; normal values keep
`2 ^ 52 ≤ m < 2 ^ 53`. -/
structure Dyadic where
  m : Nat
  e : Int
deriving Repr, DecidableEq

/-- Round the exact quotient `A / B` (known to lie in `[2 ^ 52, 2 ^ 53)`) to
the integer mantissa grid, nearest, ties to even; `e` is the binary exponent
of the result.  A round-up to `2 ^ 53` renormalizes. -/
def roundQuot (A B : Nat) (e : Int) : Dyadic :=
  let q := A / B
  let r := A % B
  let q2 :=
    if 2 * r > B then q + 1
    else if 2 * r < B then q
    else if q % 2 = 0 then q else q + 1
  if q2 = 9007199254740992 then ⟨4503599627370496, e + 1⟩ else ⟨q2, e⟩

/-- Binary64 division `c / t` of two naturals (round to nearest, ties to
even).  The scale `k` puts the quotient into `[2 ^ 51, 2 ^ 53)`; one more
doubling lands it in `[2 ^ 52, 2 ^ 53)`.  The `t = 0` case never arises: the
view divides only under its `total_steps > 0` guard (Python would raise
`ZeroDivisionError`). -/
def floatDivNat (c t : Nat) : Dyadic :=
  if c = 0 ∨ t = 0 then ⟨0, 0⟩
  else
    let k : Int := 52 - (bitlen c : Int) + (bitlen t : Int)
    let A := if 0 ≤ k then c * 2 ^ k.toNat else c
    let B := if 0 ≤ k then t else t * 2 ^ (-k).toNat
    if A / B < 4503599627370496 then roundQuot (2 * A) B (-(k + 1))
    else roundQuot A B (-k)

/-- Binary64 multiplication of a value by a small natural (round to nearest,
ties to even): the exact product has at most 53 + bitlen n bits and is rounded
back to 53. -/
def floatMulNat (x : Dyadic) (n : Nat) : Dyadic :=
  if x.m = 0 ∨ n = 0 then ⟨0, 0⟩
  else
    let p := x.m * n
    let b := bitlen p
    if b ≤ 53 then ⟨p, x.e⟩
    else
      let s := b - 53
      let q := p / 2 ^ s
      let r := p % 2 ^ s
      let half := 2 ^ (s - 1)
      let q2 :=
        if r > half then q + 1
        else if r < half then q
        else if q % 2 = 0 then q else q + 1
      if q2 = 9007199254740992 then ⟨4503599627370496, x.e + s + 1⟩
      else ⟨q2, x.e + s⟩

/-- Python `int()` on a nonnegative double: truncation toward zero. -/
def dyadicTruncNat (x : Dyadic) : Nat :=
  if 0 ≤ x.e then x.m * 2 ^ x.e.toNat else x.m / 2 ^ (-x.e).toNat

/-- `int((completed / total) * 100)` exactly as Python evaluates it. -/
def pyFloatPercent (completed total : Nat) : Nat :=
  dyadicTruncNat (floatMulNat (floatDivNat completed total) 100)

/-- Number of timeline steps whose tracking status is `COMPLETED`
(shipments/views.py line 145). -/
def completedCount (statuses : List String) : Nat :=
  (statuses.filter (fun s => s == "COMPLETED")).length

/-- Embedding of the progress computation (shipments/views.py lines 143-146)
over the per-step timeline statuses:
`int((completed_steps / total_steps) * 100) if total_steps > 0 else 0`,
with the float expression modelled by `pyFloatPercent`. -/
def progress_percent (statuses : List String) : Nat :=
  if statuses.length > 0 then
    pyFloatPercent (completedCount statuses) statuses.length
  else 0

/-- Modelled from the spec: `percent = round(completedCount/totalCount*100)`,
rounding to the nearest integer (half rounds up), and 0 when the total is 0. -/
def spec_round_percent (completed total : Nat) : Nat :=
  if total > 0 then (completed * 100 * 2 + total) / (2 * total) else 0

/-- C8 counterexample: with 2 of 3 steps completed the code computes
`int(66.66666666666666) = 66` while the claimed round-to-nearest gives 67;
moreover at 29 of 100 the float evaluation gives `int(28.999999999999996) =
28` where round-to-nearest gives 29. -/
theorem progress_percent_truncates :
    progress_percent ["COMPLETED", "COMPLETED", "PENDING"] = 66 ∧
    spec_round_percent 2 3 = 67 ∧
    completedCount ["COMPLETED", "COMPLETED", "PENDING"] = 2 ∧
    pyFloatPercent 29 100 = 28 ∧
    spec_round_percent 29 100 = 29 := by
  refine ⟨?_, ?_, ?_, ?_, ?_⟩
  · rfl
  · rfl
  · rfl
  · rfl
  · rfl

/-- One pair of the exhaustive check: the float-truncated percent for
`c` completed of `t` is the exact floor `c * 100 / t` or one less. -/
def pairOk (c t : Nat) : Bool :=
  let v := pyFloatPercent c t
  let f := c * 100 / t
  v == f || v + 1 == f

/-- Check `pairOk c t` for every completed count `c` up to the given bound. -/
def checkT (t : Nat) : Nat → Bool
  | 0 => pairOk 0 t
  | c + 1 => pairOk (c + 1) t && checkT t c

/-- Check all totals `t` with `lo < t ≤ lo + n` (each with all completed
counts up to `t`). -/
def checkRange (lo : Nat) : Nat → Bool
  | 0 => true
  | n + 1 => checkT (lo + n + 1) (lo + n + 1) && checkRange lo n

set_option maxRecDepth 40000 in
set_option maxHeartbeats 4000000 in
/-- Exhaustive kernel evaluation for totals 1-60. -/
theorem checkRange_to_60 : checkRange 0 60 = true := by decide

set_option maxRecDepth 40000 in
set_option maxHeartbeats 4000000 in
/-- Exhaustive kernel evaluation for totals 61-80. -/
theorem checkRange_to_80 : checkRange 60 20 = true := by decide

set_option maxRecDepth 40000 in
set_option maxHeartbeats 4000000 in
/-- Exhaustive kernel evaluation for totals 81-90. -/
theorem checkRange_to_90 : checkRange 80 10 = true := by decide

set_option maxRecDepth 40000 in
set_option maxHeartbeats 4000000 in
/-- Exhaustive kernel evaluation for totals 91-100. -/
theorem checkRange_to_100 : checkRange 90 10 = true := by decide

/-- Extraction: a successful `checkT` bound covers every smaller count. -/
theorem checkT_pairOk (t : Nat) :
    ∀ c0, checkT t c0 = true → ∀ c, c ≤ c0 → pairOk c t = true := by
  intro c0
  induction c0 with
  | zero =>
      intro h c hc
      have hc0 : c = 0 := Nat.le_zero.mp hc
      rw [hc0]
      simpa [checkT] using h
  | succ n ih =>
      intro h c hc
      simp only [checkT, Bool.and_eq_true] at h
      by_cases he : c = n + 1
      · rw [he]
        exact h.1
      · exact ih h.2 c (by omega)

/-- Extraction: a successful `checkRange` covers every total in its band. -/
theorem checkRange_checkT (lo : Nat) :
    ∀ n, checkRange lo n = true →
      ∀ t, lo < t → t ≤ lo + n → checkT t t = true := by
  intro n
  induction n with
  | zero =>
      intro _ t h1 h2
      omega
  | succ m ih =>
      intro h t h1 h2
      simp only [checkRange, Bool.and_eq_true] at h
      by_cases he : t = lo + m + 1
      · rw [he]
        exact h.1
      · exact ih h.2 t h1 (by omega)

/-- C8 amended: the progress percentage is the `int()` truncation of the
binary64 value `(completedCount / totalCount) * 100` — not round-to-nearest —
and 0 when there are no steps; for every shipment with at most 100 expected
steps the computed percent equals the exact floor
`completedCount * 100 / totalCount`, or falls one below it at the float
integer-boundary anomalies (29/50, 29/100, 57/100, 58/100). -/
theorem progress_percent_floor_or_one_less (statuses : List String)
    (h1 : 0 < statuses.length) (h2 : statuses.length ≤ 100) :
    progress_percent statuses =
      completedCount statuses * 100 / statuses.length ∨
    progress_percent statuses + 1 =
      completedCount statuses * 100 / statuses.length := by
  have hT : checkT statuses.length statuses.length = true := by
    by_cases hb1 : statuses.length ≤ 60
    · exact checkRange_checkT 0 60 checkRange_to_60 _ h1 (by omega)
    · by_cases hb2 : statuses.length ≤ 80
      · exact checkRange_checkT 60 20 checkRange_to_80 _ (by omega) (by omega)
      · by_cases hb3 : statuses.length ≤ 90
        · exact checkRange_checkT 80 10 checkRange_to_90 _ (by omega) (by omega)
        · exact checkRange_checkT 90 10 checkRange_to_100 _ (by omega) (by omega)
  have hp : pairOk (completedCount statuses) statuses.length = true :=
    checkT_pairOk _ _ hT _ (List.length_filter_le _ _)
  simp only [pairOk, Bool.or_eq_true, beq_iff_eq] at hp
  unfold progress_percent
  rw [if_pos h1]
  exact hp

/-- C8 witness: the counterexample shipment (2 of 3 completed) satisfies the
amended claim through the left disjunct (66 = floor of 200/3). -/
theorem progress_percent_floor_or_one_less_witness :
    progress_percent ["COMPLETED", "COMPLETED", "PENDING"] =
      completedCount ["COMPLETED", "COMPLETED", "PENDING"] * 100 /
        (["COMPLETED", "COMPLETED", "PENDING"] : List String).length ∨
    progress_percent ["COMPLETED", "COMPLETED", "PENDING"] + 1 =
      completedCount ["COMPLETED", "COMPLETED", "PENDING"] * 100 /
        (["COMPLETED", "COMPLETED", "PENDING"] : List String).length :=
  progress_percent_floor_or_one_less ["COMPLETED", "COMPLETED", "PENDING"]
    (by decide) (by decide)

/-! ## Notifications and the expiration job (clients/tasks.py 21-97,
notifications/models.py 17-106) -/

/-- Embedding of a `Notification` row (notifications/models.py): the three
columns that participate in the get-or-create key.  `content_type` is the
NULLABLE generic foreign key to `ContentType`, modelled by the referenced
model name; the display columns (`title`, `message`, `priority`,
`related_client`, recipient and read/email flags) are create-time defaults
that never enter a lookup and are omitted. -/
structure Notification where
  notification_type : String
  content_type : Option String
  object_id : Option Nat
deriving Repr, DecidableEq

/-- Django `QuerySet.get_or_create` exactly as invoked by
`check_document_expiration` (clients/tasks.py lines 55-66 and 77-88): the
lookup kwargs are `notification_type`, `content_type__model` and `object_id`.
On a miss Django builds the create parameters from the kwargs WITHOUT any key
containing the lookup separator `__` (`QuerySet._extract_model_params` keeps
only plain field names), and the `defaults` dict does not supply
`content_type`, so the created row is persisted with `content_type = NULL`. -/
def notification_get_or_create (db : List Notification)
    (ntype ctypeModel : String) (objId : Nat) : List Notification × Bool :=
  if db.any (fun n => n.notification_type == ntype &&
      n.content_type == some ctypeModel && n.object_id == some objId) then
    (db, false)
  else (db ++ [⟨ntype, none, some objId⟩], true)

/-- Embedding of the Celery task `check_document_expiration`
(clients/tasks.py lines 21-97): sweep expired documents, then get-or-create a
`DOCUMENT_EXPIRING` notification for each `APROBADO` document whose expiration
falls within the 30-day warning window, then a `DOCUMENT_EXPIRED` notification
for each `VENCIDO` document.  Returns the updated documents, the notification
table and the newly-expired count. -/
def check_document_expiration (docs : List ClientDocument)
    (db : List Notification) (today : Date) :
    List ClientDocument × List Notification × Nat :=
  let swept := (sweepExpirations docs today).1
  let expiring := swept.filter (fun d =>
    (match d.expiration_date with
     | some e => dateLe today e && dateLe e (addDays today 30)
     | none => false) && (d.status == "APROBADO"))
  let db1 := expiring.foldl (fun acc d =>
    (notification_get_or_create acc "DOCUMENT_EXPIRING" "clientdocument" d.id).1)
    db
  let expired := swept.filter (fun d => d.status == "VENCIDO")
  let db2 := expired.foldl (fun acc d =>
    (notification_get_or_create acc "DOCUMENT_EXPIRED" "clientdocument" d.id).1)
    db1
  (swept, db2, (sweepExpirations docs today).2)

/-- An approved document expiring in 10 days, as seen by the daily job. -/
def expiringDemoDoc : ClientDocument :=
  ⟨1, ⟨"INVOICE", true, some 6⟩, none, some ⟨2024, 6, 10⟩, "APROBADO",
   none, none, ""⟩

/-- First run of the expiration job over the demo document. -/
def expirationJobRun1 : List ClientDocument × List Notification × Nat :=
  check_document_expiration [expiringDemoDoc] [] ⟨2024, 6, 1⟩

/-- Second, supposedly idempotent run over the state the first run left. -/
def expirationJobRun2 : List ClientDocument × List Notification × Nat :=
  check_document_expiration expirationJobRun1.1 expirationJobRun1.2.1
    ⟨2024, 6, 1⟩

set_option maxRecDepth 4000 in
/-- C9: the notification dedup is broken.  The get-or-create lookup uses the
`content_type__model` join, but the row it creates has `content_type = NULL`
(Django drops `__`-lookups from the create parameters), so the next run finds
nothing and creates a second `DOCUMENT_EXPIRING` notification for the same
document: after two runs the table holds 2 such rows, not 1. -/
theorem check_document_expiration_duplicates_notifications :
    (expirationJobRun1.2.1.filter (fun n =>
        n.notification_type == "DOCUMENT_EXPIRING" &&
        n.object_id == some 1)).length = 1 ∧
    (expirationJobRun2.2.1.filter (fun n =>
        n.notification_type == "DOCUMENT_EXPIRING" &&
        n.object_id == some 1)).length = 2 := by
  constructor
  · rfl
  · rfl

end Loginco
